import Mathlib

/-!
Shallow embedding of the ELBv2 backend model (`src/moto/elbv2/models.py`):
the resource registry (load balancers, listeners, rules, target groups,
targets), its validation helpers, and the lifecycle operations that the
verified properties are about.

Conventions of the embedding:
* A Python `OrderedDict` is an association list `List (String × α)` whose
  keys are unique; `odGet`, `odSet`, `odPop` mirror `d[k]` / `d.get(k)`,
  `d[k] = v` (update in place, append when new) and `d.pop(k, None)`.
* A Python method that may `raise` and mutates its object in place is a
  function returning `Except ElbError α × State`: the second component is
  the state after the call, which on an error carries exactly the
  mutations performed before the `raise` (Python exceptions do not roll
  back in-place mutation).
* Pure validators that only `raise` or fall through return `Option ElbError`
  (`some e` = the exception raised, `none` = no exception).
* Non-deterministic identifier suffixes (`id(self)`, `get_random_hex`) are
  taken as explicit string parameters.
* Fields the embedded operations never read (health-check configuration,
  attribute maps, timestamps, the subnet objects behind their ids) are
  omitted or kept as opaque strings.
-/

/-- `d.get(k)` / `d[k]` on an ordered dict: the value at the first matching
key. -/
def odGet {α : Type} (m : List (String × α)) (k : String) : Option α :=
  match m with
  | [] => none
  | (k', v) :: rest => if k' = k then some v else odGet rest k

/-- `d[k] = v` on an ordered dict: update the first matching entry in place,
append when the key is new. -/
def odSet {α : Type} (m : List (String × α)) (k : String) (v : α) :
    List (String × α) :=
  match m with
  | [] => [(k, v)]
  | (k', v') :: rest =>
    if k' = k then (k', v) :: rest else (k', v') :: odSet rest k v

/-- `d.pop(k, None)` on an ordered dict: remove the first matching entry,
no-op when the key is absent. -/
def odPop {α : Type} (m : List (String × α)) (k : String) :
    List (String × α) :=
  match m with
  | [] => []
  | (k', v') :: rest => if k' = k then rest else (k', v') :: odPop rest k

/-- The exceptions of `moto/elbv2/exceptions.py` that `models.py` raises,
plus `KeyError` / `IndexError` standing for the Python runtime errors
reachable from the modelled code paths. -/
inductive ElbError where
  | DuplicateLoadBalancerName
  | DuplicateListenerError
  | DuplicateTargetGroupName
  | InvalidTargetError
  | ListenerNotFoundError
  | LoadBalancerNotFoundError
  | SubnetNotFoundError
  | TargetGroupNotFoundError
  | TooManyTagsError
  | PriorityInUseError
  | InvalidConditionFieldError (field : String)
  | InvalidConditionValueError (msg : String)
  | InvalidActionTypeError (actionType : Option String) (index : Nat)
  | ActionTargetGroupNotFoundError (arn : String)
  | InvalidDescribeRulesRequest (msg : String)
  | ResourceInUseError (msg : String)
  | RuleNotFoundError
  | DuplicatePriorityError (priority : Nat)
  | InvalidTargetGroupNameError (msg : String)
  | InvalidModifyRuleArgumentsError
  | InvalidStatusCodeActionTypeError (msg : String)
  | InvalidLoadBalancerActionException (msg : String)
  | ParamValidationError (report : String)
  | RESTError (errorType : String) (msg : String)
  | KeyError
  | IndexError
deriving DecidableEq

deriving instance DecidableEq for Except

/-- A rule priority: an `int`, or the string sentinel stored on a
listener's default rule (`FakeRule.__init__`: `priority  # int or 'default'`). -/
inductive Priority where
  | defaultSentinel
  | num (n : Nat)
deriving DecidableEq

/-- One entry of a `QueryStringConfig.Values` list: a
`QueryStringKeyValuePair` dict whose `Key` and `Value` keys may each be
absent. -/
structure QueryStringKeyValuePair where
  key : Option String
  value : Option String
deriving DecidableEq

/-- The `HttpHeaderConfig` dict of an http-header condition. (A config with
no `HttpHeaderName` key makes the source crash on `len(None)`; the name is
therefore kept as a required field.) -/
structure HttpHeaderConfig where
  httpHeaderName : String
  values : List String
deriving DecidableEq

/-- A rule condition dict. Each optional field models the presence of the
homonymous key; a config dict is collapsed to the payload the source reads
from it (`HostHeaderConfig` / `PathPatternConfig` to their `Values` list,
`SourceIpConfig` to `config.get("Values", [])`). -/
structure Condition where
  field : Option String
  values : Option (List String)
  hostHeaderConfig : Option (List String)
  httpHeaderConfig : Option HttpHeaderConfig
  httpRequestMethodConfig : Option (List String)
  pathPatternConfig : Option (List String)
  sourceIpConfig : Option (List String)
  queryStringConfig : Option (List QueryStringKeyValuePair)
deriving DecidableEq

/-- A condition dict with no keys, to be extended with `with`. -/
def emptyCondition : Condition :=
  { field := none, values := none, hostHeaderConfig := none,
    httpHeaderConfig := none, httpRequestMethodConfig := none,
    pathPatternConfig := none, sourceIpConfig := none,
    queryStringConfig := none }

/-- The `FixedResponseConfig` dict of a fixed-response action. -/
structure FixedResponseConfig where
  statusCode : Option String
  contentType : Option String
deriving DecidableEq

/-- `FakeAction`: `self.type = data.get("Type")` plus the parts of
`self.data` the backend reads. `forwardConfig` models
`data["ForwardConfig"]`, collapsed to the `TargetGroupArn`s of its
`TargetGroups` list (`.get("TargetGroups", [])`). -/
structure FakeAction where
  type : Option String
  targetGroupArn : Option String
  forwardConfig : Option (List String)
  fixedResponseConfig : Option FixedResponseConfig
deriving DecidableEq

/-- `FakeRule`. -/
structure FakeRule where
  listener_arn : String
  arn : String
  conditions : List Condition
  priority : Priority
  actions : List FakeAction
  is_default : Bool
deriving DecidableEq

/-- `FakeRule.__init__`: the rule arn is derived from the listener arn; the
`id(self)` suffix is the explicit `idSuffix` parameter. -/
def mkFakeRule (listener_arn : String) (conditions : List Condition)
    (priority : Priority) (actions : List FakeAction) (is_default : Bool)
    (idSuffix : String) : FakeRule :=
  { listener_arn := listener_arn,
    arn := (listener_arn.replace ":listener/" ":listener-rule/") ++ "/" ++ idSuffix,
    conditions := conditions, priority := priority, actions := actions,
    is_default := is_default }

/-- `FakeListener`: `_non_default_rules` is the ordered dict of non-default
rules keyed by rule arn; `_default_rule` (an ordered dict with the single
key `0` in the source) is kept as the rule itself. -/
structure FakeListener where
  load_balancer_arn : String
  arn : String
  protocol : String
  port : Nat
  ssl_policy : Option String
  certificate : Option String
  certificates : List String
  default_actions : List FakeAction
  non_default_rules : List (String × FakeRule)
  default_rule : FakeRule
  tags : List (String × String)
deriving DecidableEq

/-- `FakeListener.rules`: the non-default rules followed by the default
rule (the source concatenates the two ordered dicts in that order). -/
def FakeListener.rules (l : FakeListener) : List FakeRule :=
  l.non_default_rules.map Prod.snd ++ [l.default_rule]

/-- Python `str.upper()`, character by character (`String.toUpper` is not
kernel-reducible; for the ASCII protocol strings involved the two agree). -/
def pyUpper (s : String) : String :=
  String.mk (s.data.map Char.toUpper)

/-- `FakeListener.__init__`. `certificates` is `[certificate]` when a
certificate is given and `[]` otherwise; the default rule is created with
the `default` priority sentinel. `defaultRuleIdSuffix` stands for the
`id(self)` suffix of the default rule's arn. -/
def mkFakeListener (load_balancer_arn arn : String) (protocol : Option String)
    (port : Nat) (ssl_policy : Option String) (certificate : Option String)
    (default_actions : List FakeAction) (defaultRuleIdSuffix : String) :
    FakeListener :=
  { load_balancer_arn := load_balancer_arn, arn := arn,
    protocol := pyUpper (protocol.getD ""),
    port := port, ssl_policy := ssl_policy, certificate := certificate,
    certificates := match certificate with | some c => [c] | none => [],
    default_actions := default_actions,
    non_default_rules := [],
    default_rule :=
      mkFakeRule arn [] Priority.defaultSentinel default_actions true
        defaultRuleIdSuffix,
    tags := [] }

/-- `FakeListener.remove_rule`: `self._non_default_rules.pop(arn)` — a
`KeyError` when the arn is not a non-default rule's key. -/
def FakeListener.remove_rule (l : FakeListener) (arn : String) :
    Except ElbError FakeListener :=
  if (odGet l.non_default_rules arn).isSome then
    .ok { l with non_default_rules := odPop l.non_default_rules arn }
  else
    .error .KeyError

/-- `FakeListener.register`: store a rule under its arn. (The source's
dangling `sorted(...)` call builds a list it discards.) -/
def FakeListener.registerRule (l : FakeListener) (arn : String) (rule : FakeRule) :
    FakeListener :=
  { l with non_default_rules := odSet l.non_default_rules arn rule }

/-- `FakeLoadBalancer`. Subnets are kept as their ids, `attrs`,
`created_time` and `stack` are omitted (no embedded operation reads them). -/
structure FakeLoadBalancer where
  name : String
  scheme : String
  security_groups : List String
  subnets : List String
  vpc_id : String
  listeners : List (String × FakeListener)
  tags : List (String × String)
  arn : String
  dns_name : String
  state : String
  loadbalancer_type : String
deriving DecidableEq

/-- `FakeLoadBalancer.add_tag`: reject an 11th distinct key, otherwise
upsert. -/
def FakeLoadBalancer.add_tag (lb : FakeLoadBalancer) (key value : String) :
    Except ElbError Unit × FakeLoadBalancer :=
  if 10 ≤ lb.tags.length ∧ (odGet lb.tags key).isNone then
    (.error .TooManyTagsError, lb)
  else
    (.ok (), { lb with tags := odSet lb.tags key value })

/-- `FakeLoadBalancer.activate`: `provisioning → active`, otherwise no-op. -/
def FakeLoadBalancer.activate (lb : FakeLoadBalancer) : FakeLoadBalancer :=
  if lb.state = "provisioning" then { lb with state := "active" } else lb

/-- A registered target: `{"id": ..., "port": ...}`. -/
structure FakeTarget where
  id : String
  port : Nat
deriving DecidableEq

/-- A target dict passed to register/deregister: `target["id"]` is
required, `target.get("port", ...)` may be absent. -/
structure TargetDesc where
  id : String
  port : Option Nat
deriving DecidableEq

/-- `FakeTargetGroup`. Health-check configuration, `matcher`,
`protocol_version` and the attribute map are omitted (no embedded
operation reads them). -/
structure FakeTargetGroup where
  name : String
  arn : String
  vpc_id : String
  protocol : Option String
  port : Nat
  load_balancer_arns : List String
  tags : List (String × String)
  targets : List (String × FakeTarget)
deriving DecidableEq

/-- `FakeTargetGroup.register`: upsert each target under its id, the port
defaulting to the group's port. -/
def FakeTargetGroup.register (tg : FakeTargetGroup) (targets : List TargetDesc) :
    FakeTargetGroup :=
  targets.foldl
    (fun g t =>
      { g with targets := odSet g.targets t.id { id := t.id, port := t.port.getD g.port } })
    tg

/-- `FakeTargetGroup.deregister`: pop each id in turn; on the first id whose
pop finds nothing, raise `InvalidTargetError`. The pops performed before
the raise stay applied (in-place mutation). -/
def FakeTargetGroup.deregister (tg : FakeTargetGroup) (targets : List TargetDesc) :
    Except ElbError Unit × FakeTargetGroup :=
  match targets with
  | [] => (.ok (), tg)
  | t :: rest =>
    match odGet tg.targets t.id with
    | some _ => FakeTargetGroup.deregister { tg with targets := odPop tg.targets t.id } rest
    | none => (.error .InvalidTargetError, tg)

/-- `FakeTargetGroup.add_tag`: identical to the load balancer's. -/
def FakeTargetGroup.add_tag (tg : FakeTargetGroup) (key value : String) :
    Except ElbError Unit × FakeTargetGroup :=
  if 10 ≤ tg.tags.length ∧ (odGet tg.tags key).isNone then
    (.error .TooManyTagsError, tg)
  else
    (.ok (), { tg with tags := odSet tg.tags key value })

/-- `ELBv2Backend`: the per-region registry state. -/
structure ELBv2Backend where
  region_name : String
  target_groups : List (String × FakeTargetGroup)
  load_balancers : List (String × FakeLoadBalancer)
deriving DecidableEq

/-! ### Condition validation (`ELBv2Backend._validate_conditions` and the
per-field validators; these read no backend state and are embedded as
standalone functions) -/

/-- Shared tail of `_validate_host_header_condition`: reject an empty value
list, then reject the first value longer than 128 characters. -/
def hostHeaderValuesCheck (values : List String) : Option ElbError :=
  if values.length = 0 then
    some (.InvalidConditionValueError "A condition value must be specified")
  else if values.any (fun v => 128 < v.length) then
    some (.InvalidConditionValueError
      "The 'host-header' value is too long; the limit is '128'")
  else none

/-- `_validate_host_header_condition`: values come from `HostHeaderConfig`
when present (no cardinality check on that path), else from the legacy
`Values` key (at most one value there). -/
def validate_host_header_condition (condition : Condition) : Option ElbError :=
  match condition.hostHeaderConfig, condition.values with
  | some cfgValues, _ => hostHeaderValuesCheck cfgValues
  | none, some vs =>
    if 1 < vs.length then
      some (.InvalidConditionValueError
        "The 'host-header' field contains too many values; the limit is '1'")
    else hostHeaderValuesCheck vs
  | none, none =>
    some (.InvalidConditionValueError "A condition value must be specified")

/-- `_validate_http_header_condition`. -/
def validate_http_header_condition (condition : Condition) : Option ElbError :=
  match condition.httpHeaderConfig with
  | some config =>
    if 40 < config.httpHeaderName.length then
      some (.InvalidConditionValueError
        "The 'HttpHeaderName' value is too long; the limit is '40'")
    else if config.values.any (fun v => 128 < v.length) then
      some (.InvalidConditionValueError
        "The 'http-header' value is too long; the limit is '128'")
    else none
  | none =>
    some (.InvalidConditionValueError
      "A 'HttpHeaderConfig' must be specified with 'http-header'")

/-- `re.match("[A-Z_-]+", value)`: an unanchored-end prefix match, true
exactly when the value starts with an uppercase letter, hyphen or
underscore. -/
def httpMethodCharsOk (v : String) : Bool :=
  match v.toList with
  | [] => false
  | ch :: _ => ch.isUpper || ch = '_' || ch = '-'

/-- The per-value loop of `_validate_http_request_method_condition`. -/
def httpMethodValuesCheck (values : List String) : Option ElbError :=
  match values with
  | [] => none
  | v :: rest =>
    if 40 < v.length then
      some (.InvalidConditionValueError
        "The 'http-request-method' value is too long; the limit is '40'")
    else if ¬ httpMethodCharsOk v then
      some (.InvalidConditionValueError
        "The 'http-request-method' value is invalid; the allowed characters are A-Z, hyphen and underscore")
    else httpMethodValuesCheck rest

/-- `_validate_http_request_method_condition`. -/
def validate_http_request_method_condition (condition : Condition) :
    Option ElbError :=
  match condition.httpRequestMethodConfig with
  | some values => httpMethodValuesCheck values
  | none =>
    some (.InvalidConditionValueError
      "A 'HttpRequestMethodConfig' must be specified with 'http-request-method'")

/-- `_validate_path_pattern_condition`: same value-source selection as
host-header, then the both-sources check (both keys present and the legacy
`Values` list non-empty), then the length check. -/
def validate_path_pattern_condition (condition : Condition) : Option ElbError :=
  match condition.pathPatternConfig, condition.values with
  | some cfgValues, legacy =>
    if cfgValues.length = 0 then
      some (.InvalidConditionValueError "A condition value must be specified")
    else if (legacy.getD []).length ≠ 0 then
      some (.InvalidConditionValueError
        "You cannot provide both Values and 'PathPatternConfig' for a condition of type 'path-pattern'")
    else if cfgValues.any (fun v => 128 < v.length) then
      some (.InvalidConditionValueError
        "The 'path-pattern' value is too long; the limit is '128'")
    else none
  | none, some vs =>
    if 1 < vs.length then
      some (.InvalidConditionValueError
        "The 'path-pattern' field contains too many values; the limit is '1'")
    else if vs.length = 0 then
      some (.InvalidConditionValueError "A condition value must be specified")
    else if vs.any (fun v => 128 < v.length) then
      some (.InvalidConditionValueError
        "The 'path-pattern' value is too long; the limit is '128'")
    else none
  | none, none =>
    some (.InvalidConditionValueError "A condition value must be specified")

/-- `_validate_source_ip_condition`: `SourceIpConfig.get("Values", [])` must
be non-empty. -/
def validate_source_ip_condition (condition : Condition) : Option ElbError :=
  match condition.sourceIpConfig with
  | some values =>
    if values.length = 0 then
      some (.InvalidConditionValueError "A 'source-ip' value must be specified")
    else none
  | none =>
    some (.InvalidConditionValueError
      "A 'SourceIpConfig' must be specified with 'source-ip'")

/-- The per-entry loop of `_validate_query_string_condition`. -/
def queryStringValuesCheck (values : List QueryStringKeyValuePair) :
    Option ElbError :=
  match values with
  | [] => none
  | kv :: rest =>
    match kv.value with
    | none =>
      some (.InvalidConditionValueError
        "A 'Value' must be specified in 'QueryStringKeyValuePair'")
    | some v =>
      if kv.key.any (fun k => 128 < k.length) then
        some (.InvalidConditionValueError
          "The 'Key' value is too long; the limit is '128'")
      else if 128 < v.length then
        some (.InvalidConditionValueError
          "The 'Value' value is too long; the limit is '128'")
      else queryStringValuesCheck rest

/-- `_validate_query_string_condition`. -/
def validate_query_string_condition (condition : Condition) : Option ElbError :=
  match condition.queryStringConfig with
  | some values => queryStringValuesCheck values
  | none =>
    some (.InvalidConditionValueError
      "A 'QueryStringConfig' must be specified with 'query-string'")

/-- The condition fields `_validate_conditions` accepts. -/
def conditionFields : List String :=
  ["host-header", "http-header", "http-request-method", "path-pattern",
   "query-string", "source-ip"]

/-- The body of `_validate_conditions` for one condition: a condition
without a `Field` key is skipped; an unknown field is rejected; a legacy
`Values` key is only compatible with host-header and path-pattern;
otherwise dispatch to the per-field validator. -/
def validate_condition (condition : Condition) : Option ElbError :=
  match condition.field with
  | none => none
  | some field =>
    if field ∉ conditionFields then
      some (.InvalidConditionFieldError field)
    else if condition.values.isSome ∧ field ∉ ["host-header", "path-pattern"] then
      some (.InvalidConditionValueError
        ("The 'Values' field is not compatible with '" ++ field ++ "'"))
    else if field = "host-header" then validate_host_header_condition condition
    else if field = "http-header" then validate_http_header_condition condition
    else if field = "http-request-method" then
      validate_http_request_method_condition condition
    else if field = "path-pattern" then validate_path_pattern_condition condition
    else if field = "query-string" then validate_query_string_condition condition
    else validate_source_ip_condition condition

/-- `ELBv2Backend._validate_conditions`: raise the first validator error. -/
def validate_conditions (conditions : List Condition) : Option ElbError :=
  match conditions with
  | [] => none
  | c :: rest =>
    match validate_condition c with
    | some e => some e
    | none => validate_conditions rest

/-! ### Action validation -/

/-- `ELBv2Backend._get_target_group_arns_from`: a single `TargetGroupArn`,
else the arns of `ForwardConfig.TargetGroups`, else nothing. -/
def getTargetGroupArnsFrom (action_data : FakeAction) : List String :=
  match action_data.targetGroupArn with
  | some arn => [arn]
  | none =>
    match action_data.forwardConfig with
    | some tgs => tgs
    | none => []

/-- `re.match(r"^(2|4|5)\d\d$", status_code)`: a 2xx, 4xx or 5xx code of
exactly three digits. (Python's `$` would also admit one trailing newline;
no embedded caller produces one.) -/
def fixedResponseCodeOk (status_code : String) : Bool :=
  match status_code.toList with
  | [c0, c1, c2] => (c0 = '2' || c0 = '4' || c0 = '5') && c1.isDigit && c2.isDigit
  | _ => false

/-- The content types `_validate_fixed_response_action` accepts. -/
def allowedContentTypes : List String :=
  ["text/plain", "text/css", "text/html", "application/javascript",
   "application/json"]

/-- `ELBv2Backend._validate_fixed_response_action` for the action at
0-based position `i` (reported 1-based as `index`). -/
def validate_fixed_response_action (action : FakeAction) (i index : Nat) :
    Option ElbError :=
  match action.fixedResponseConfig.bind FixedResponseConfig.statusCode with
  | none =>
    some (.ParamValidationError
      ("Missing required parameter in Actions[" ++ toString i ++
       "].FixedResponseConfig: \"StatusCode\""))
  | some status_code =>
    if ¬ fixedResponseCodeOk status_code then
      some (.InvalidStatusCodeActionTypeError
        ("1 validation error detected: Value '" ++ status_code ++
         "' at 'actions." ++ toString index ++
         ".member.fixedResponseConfig.statusCode' failed to satisfy constraint: Member must satisfy regular expression pattern: ^(2|4|5)\\d\\d$"))
    else
      match action.fixedResponseConfig.bind FixedResponseConfig.contentType with
      | some content_type =>
        if content_type ≠ "" ∧ content_type ∉ allowedContentTypes then
          some (.InvalidLoadBalancerActionException
            "The ContentType must be one of:'text/html', 'application/json', 'application/javascript', 'text/css', 'text/plain'")
        else none
      | none => none

/-- The loop of `ELBv2Backend._validate_actions`, with the current 0-based
position `i` and the arns of the backend's target groups. (The source's
second `forward` test inside the `elif` chain is unreachable: the first
branch already catches every forward action.) -/
def validateActionsFrom (target_group_arns : List String) (i : Nat)
    (actions : List FakeAction) : Option ElbError :=
  match actions with
  | [] => none
  | action :: rest =>
    let index := i + 1
    if action.type = some "forward" then
      match (getTargetGroupArnsFrom action).find?
          (fun a => ¬ target_group_arns.contains a) with
      | some tga => some (.ActionTargetGroupNotFoundError tga)
      | none => validateActionsFrom target_group_arns (i + 1) rest
    else if action.type = some "fixed-response" then
      match validate_fixed_response_action action i index with
      | some e => some e
      | none => validateActionsFrom target_group_arns (i + 1) rest
    else if action.type = some "redirect" ∨ action.type = some "authenticate-cognito" then
      validateActionsFrom target_group_arns (i + 1) rest
    else
      some (.InvalidActionTypeError action.type index)

/-- `ELBv2Backend._validate_actions`. -/
def ELBv2Backend.validate_actions (b : ELBv2Backend) (actions : List FakeAction) :
    Option ElbError :=
  validateActionsFrom (b.target_groups.map (fun p => p.2.arn)) 0 actions

/-! ### Describe operations -/

/-- `FakeLoadBalancer.activate` applied to every stored balancer. -/
def ELBv2Backend.activateAll (b : ELBv2Backend) : ELBv2Backend :=
  { b with load_balancers := b.load_balancers.map (fun p => (p.1, p.2.activate)) }

/-- One `for arn/name in ...` iteration pair of `describe_load_balancers`:
the inner scan leaves `matched_balancer` at the last balancer whose key
equals the looked-up one — and, crucially, the variable is never reset
between iterations, so a stale match from an earlier key survives. A
balancer is appended when not already matched (Python compares object
identities; balancers of a store are distinct objects with distinct arns,
so arn equality stands in for identity). -/
def dlbLoop (balancers : List FakeLoadBalancer) (keyOf : FakeLoadBalancer → String)
    (matched : List FakeLoadBalancer) (m : Option FakeLoadBalancer) :
    List String → Except ElbError (List FakeLoadBalancer × Option FakeLoadBalancer)
  | [] => .ok (matched, m)
  | k :: rest =>
    match balancers.foldl (fun acc bal => if keyOf bal = k then some bal else acc) m with
    | none => .error .LoadBalancerNotFoundError
    | some mb =>
      dlbLoop balancers keyOf
        (if matched.any (fun x => x.arn = mb.arn) then matched else matched ++ [mb])
        (some mb) rest

/-- `ELBv2Backend.describe_load_balancers`. `arns or []` / `names or []`
collapse `None` and the empty list. Every stored balancer is activated
before any error or result can be produced (the no-filter branch activates
all, and otherwise the first key's inner scan already visits — and
activates — every balancer before the not-found check runs), so
activation is applied up front. The arns loop's final `matched_balancer`
carries over into the names loop, exactly as in the source. -/
def ELBv2Backend.describe_load_balancers (b : ELBv2Backend)
    (arns names : Option (List String)) :
    Except ElbError (List FakeLoadBalancer) × ELBv2Backend :=
  let arnsL := arns.getD []
  let namesL := names.getD []
  let b' := b.activateAll
  let balancers := b'.load_balancers.map Prod.snd
  if arnsL.isEmpty && namesL.isEmpty then (.ok balancers, b')
  else
    match dlbLoop balancers FakeLoadBalancer.arn [] none arnsL with
    | .error e => (.error e, b')
    | .ok (matched, m) =>
      match dlbLoop balancers FakeLoadBalancer.name matched m namesL with
      | .error e => (.error e, b')
      | .ok (matched2, _) => (.ok matched2, b')

/-- The listener scan of `describe_listeners` with no load-balancer filter:
for each balancer in order, each requested arn found in its listener dict. -/
def matchedListeners (b : ELBv2Backend) (listener_arns : List String) :
    List FakeListener :=
  (b.load_balancers.map
    (fun lbp => listener_arns.filterMap (fun a => odGet lbp.2.listeners a))).flatten

/-- `ELBv2Backend.describe_listeners`. With a load-balancer arn the
requested listener arns are ignored; without one the scan must find at
least one listener when arns were requested. -/
def ELBv2Backend.describe_listeners (b : ELBv2Backend)
    (load_balancer_arn : Option String) (listener_arns : List String) :
    Except ElbError (List FakeListener) :=
  match load_balancer_arn with
  | some lbArn =>
    match odGet b.load_balancers lbArn with
    | none => .error .LoadBalancerNotFoundError
    | some lb => .ok (lb.listeners.map Prod.snd)
  | none =>
    match matchedListeners b listener_arns with
    | [] => if listener_arns.isEmpty then .ok [] else .error .ListenerNotFoundError
    | l :: rest => .ok (l :: rest)

/-- The rule scan of `describe_rules`: every rule of every listener of
every balancer whose arn is among the requested ones, in store order. -/
def matchedRules (b : ELBv2Backend) (rule_arns : List String) : List FakeRule :=
  (b.load_balancers.map
    (fun lbp =>
      (lbp.2.listeners.map
        (fun lp => lp.2.rules.filter (fun r => rule_arns.contains r.arn))).flatten)).flatten

/-- `ELBv2Backend.describe_rules`: exactly one of a listener arn and a
rule-arn list must be given; with a listener arn, that listener's rules
(the `IndexError` branch models `[0]` on an empty result and is
unreachable, `describe_listeners` having raised first); with rule arns,
the scan. -/
def ELBv2Backend.describe_rules (b : ELBv2Backend) (listener_arn : Option String)
    (rule_arns : Option (List String)) : Except ElbError (List FakeRule) :=
  if listener_arn.isNone && (rule_arns.getD []).isEmpty then
    .error (.InvalidDescribeRulesRequest
      "You must specify either listener rule ARNs or a listener ARN")
  else if listener_arn.isSome && rule_arns.isSome then
    .error (.InvalidDescribeRulesRequest
      "Listener rule ARNs and a listener ARN cannot be specified at the same time")
  else
    match listener_arn with
    | some la =>
      match b.describe_listeners none [la] with
      | .error e => .error e
      | .ok [] => .error .IndexError
      | .ok (listener :: _) => .ok listener.rules
    | none => .ok (matchedRules b (rule_arns.getD []))

/-! ### Listener creation and deletion, load-balancer deletion -/

/-- `ELBv2Backend.create_listener`. The duplicate-port test is the
source's `port in balancer.listeners`: the port value looked up among the
listener-arn keys (an arn-shaped key never equals a bare port, so the
check cannot fire on states built by this backend). `idSuffix` and
`defaultRuleIdSuffix` stand for the two `id(...)` suffixes. After
insertion, each forward default action appends the balancer arn to its
target groups (`_validate_actions` has already ensured they exist; a
missing one would be a `KeyError`, modelled as a skip on the unreachable
branch). -/
def ELBv2Backend.create_listener (b : ELBv2Backend) (load_balancer_arn : String)
    (protocol : Option String) (port : Nat) (ssl_policy : Option String)
    (certificate : Option String) (default_actions : List FakeAction)
    (idSuffix defaultRuleIdSuffix : String) :
    Except ElbError FakeListener × ELBv2Backend :=
  match odGet b.load_balancers load_balancer_arn with
  | none => (.error .LoadBalancerNotFoundError, b)
  | some balancer =>
    if balancer.listeners.any (fun kv => kv.1 = toString port) then
      (.error .DuplicateListenerError, b)
    else
      match b.validate_actions default_actions with
      | some e => (.error e, b)
      | none =>
        let arn := (load_balancer_arn.replace ":loadbalancer/" ":listener/")
          ++ "/" ++ toString port ++ idSuffix
        let listener := mkFakeListener load_balancer_arn arn protocol port
          ssl_policy certificate default_actions defaultRuleIdSuffix
        let balancer' :=
          { balancer with listeners := odSet balancer.listeners listener.arn listener }
        let b1 :=
          { b with load_balancers := odSet b.load_balancers load_balancer_arn balancer' }
        let b2 := default_actions.foldl
          (fun bb action =>
            if action.type = some "forward" then
              (getTargetGroupArnsFrom action).foldl
                (fun bb2 tga =>
                  match odGet bb2.target_groups tga with
                  | some tg =>
                    let tg' :=
                      { tg with load_balancer_arns := tg.load_balancer_arns ++ [load_balancer_arn] }
                    { bb2 with target_groups := odSet bb2.target_groups tga tg' }
                  | none => bb2)
                bb
            else bb)
          b1
        (.ok listener, b2)

/-- `ELBv2Backend.delete_load_balancer`: `self.load_balancers.pop(arn, None)`
— total, never raises. -/
def ELBv2Backend.delete_load_balancer (b : ELBv2Backend) (arn : String) :
    Except ElbError Unit × ELBv2Backend :=
  (.ok (), { b with load_balancers := odPop b.load_balancers arn })

/-- The loop of `delete_listener`: pop the arn from each balancer in turn
(`pop(arn, None)` mutates only the balancer that holds it), return the
first hit, raise `ListenerNotFoundError` when none does. -/
def deleteListenerFromLBs (arn : String) :
    List (String × FakeLoadBalancer) →
    Except ElbError FakeListener × List (String × FakeLoadBalancer)
  | [] => (.error .ListenerNotFoundError, [])
  | (k, lb) :: rest =>
    match odGet lb.listeners arn with
    | some listener =>
      (.ok listener, (k, { lb with listeners := odPop lb.listeners arn }) :: rest)
    | none =>
      let (r, rest') := deleteListenerFromLBs arn rest
      (r, (k, lb) :: rest')

/-- `ELBv2Backend.delete_listener`. -/
def ELBv2Backend.delete_listener (b : ELBv2Backend) (listener_arn : String) :
    Except ElbError FakeListener × ELBv2Backend :=
  match deleteListenerFromLBs listener_arn b.load_balancers with
  | (r, lbs) => (r, { b with load_balancers := lbs })

/-! ### Target-group operations -/

/-- `ELBv2Backend._any_listener_using`: does any action of any rule of any
listener of any balancer reference the target group? -/
def ELBv2Backend.any_listener_using (b : ELBv2Backend) (target_group_arn : String) :
    Bool :=
  b.load_balancers.any fun lbp =>
    lbp.2.listeners.any fun lp =>
      lp.2.rules.any fun r =>
        r.actions.any fun action =>
          (getTargetGroupArnsFrom action).contains target_group_arn

/-- `ELBv2Backend.delete_target_group`. (The source's `if target_group:`
re-test is object truthiness, always true for a stored group.) -/
def ELBv2Backend.delete_target_group (b : ELBv2Backend) (target_group_arn : String) :
    Except ElbError FakeTargetGroup × ELBv2Backend :=
  match odGet b.target_groups target_group_arn with
  | none => (.error .TargetGroupNotFoundError, b)
  | some target_group =>
    if b.any_listener_using target_group_arn then
      (.error (.ResourceInUseError
        ("The target group '" ++ target_group_arn ++
         "' is currently in use by a listener or a rule")), b)
    else
      (.ok target_group, { b with target_groups := odPop b.target_groups target_group_arn })

/-- `ELBv2Backend.register_targets`. -/
def ELBv2Backend.register_targets (b : ELBv2Backend) (target_group_arn : String)
    (instances : List TargetDesc) : Except ElbError Unit × ELBv2Backend :=
  match odGet b.target_groups target_group_arn with
  | none => (.error .TargetGroupNotFoundError, b)
  | some tg =>
    (.ok (), { b with target_groups := odSet b.target_groups target_group_arn (tg.register instances) })

/-- `ELBv2Backend.deregister_targets`: the group is mutated in place, so on
an `InvalidTargetError` the partially deregistered group stays stored. -/
def ELBv2Backend.deregister_targets (b : ELBv2Backend) (target_group_arn : String)
    (instances : List TargetDesc) : Except ElbError Unit × ELBv2Backend :=
  match odGet b.target_groups target_group_arn with
  | none => (.error .TargetGroupNotFoundError, b)
  | some tg =>
    match tg.deregister instances with
    | (r, tg') => (r, { b with target_groups := odSet b.target_groups target_group_arn tg' })

/-! ### Rule deletion -/

/-- The listener scan of `delete_rule` within one balancer: `none` when no
listener of the list holds a rule with the arn; otherwise the result of
`remove_rule` on the first listener that does. -/
def delRuleInListenerList (arn : String) :
    List (String × FakeListener) →
    Option (Except ElbError (List (String × FakeListener)))
  | [] => none
  | (k, l) :: rest =>
    if l.rules.any (fun r => r.arn = arn) then
      some (match l.remove_rule arn with
            | .ok l' => .ok ((k, l') :: rest)
            | .error e => .error e)
    else
      match delRuleInListenerList arn rest with
      | none => none
      | some (.ok rest') => some (.ok ((k, l) :: rest'))
      | some (.error e) => some (.error e)

/-- The balancer scan of `delete_rule`. -/
def delRuleInLBList (arn : String) :
    List (String × FakeLoadBalancer) →
    Option (Except ElbError (List (String × FakeLoadBalancer)))
  | [] => none
  | (k, lb) :: rest =>
    match delRuleInListenerList arn lb.listeners with
    | some (.ok ls') => some (.ok ((k, { lb with listeners := ls' }) :: rest))
    | some (.error e) => some (.error e)
    | none =>
      match delRuleInLBList arn rest with
      | none => none
      | some (.ok rest') => some (.ok ((k, lb) :: rest'))
      | some (.error e) => some (.error e)

/-- `ELBv2Backend.delete_rule`: remove the first rule whose arn matches and
return; when no rule matches, fall through silently (the source notes the
AWS API would raise `RuleNotFound` here but deliberately does not). The
`KeyError` arises when the matched rule is a listener's default rule,
whose arn is not a `_non_default_rules` key. -/
def ELBv2Backend.delete_rule (b : ELBv2Backend) (arn : String) :
    Except ElbError Unit × ELBv2Backend :=
  match delRuleInLBList arn b.load_balancers with
  | none => (.ok (), b)
  | some (.ok lbs') => (.ok (), { b with load_balancers := lbs' })
  | some (.error e) => (.error e, b)

/-! ### Bulk re-prioritization (`set_rule_priorities`) -/

/-- One entry of the `rule_priorities` request:
`{"rule_arn": ..., "priority": ...}`. -/
structure RulePriorityPair where
  rule_arn : String
  priority : Nat
deriving DecidableEq

/-- Update the priority of the first rule with the given arn in a
non-default-rule dict; identity when none matches. -/
def setPriorityInRuleList (arn : String) (p : Nat) :
    List (String × FakeRule) → List (String × FakeRule)
  | [] => []
  | (k, r) :: rest =>
    if r.arn = arn then (k, { r with priority := .num p }) :: rest
    else (k, r) :: setPriorityInRuleList arn p rest

/-- Does the listener hold a rule (non-default or default) with this arn? -/
def FakeListener.hasRuleArn (l : FakeListener) (arn : String) : Bool :=
  l.rules.any (fun r => r.arn = arn)

/-- Mutate the priority of the first rule with the given arn in this
listener, scanning the non-default rules first, then the default rule
(the order of `FakeListener.rules`); identity when none matches. -/
def FakeListener.setFirstRulePriority (l : FakeListener) (arn : String) (p : Nat) :
    FakeListener :=
  if l.non_default_rules.any (fun kr => kr.2.arn = arn) then
    { l with non_default_rules := setPriorityInRuleList arn p l.non_default_rules }
  else if l.default_rule.arn = arn then
    { l with default_rule := { l.default_rule with priority := .num p } }
  else l

/-- The listener scan of the in-place priority write: the first listener
holding the arn gets the update. -/
def setFirstRuleInListeners (arn : String) (p : Nat) :
    List (String × FakeListener) → List (String × FakeListener)
  | [] => []
  | (k, l) :: rest =>
    if l.hasRuleArn arn then (k, l.setFirstRulePriority arn p) :: rest
    else (k, l) :: setFirstRuleInListeners arn p rest

/-- Does the balancer hold a rule with this arn? -/
def FakeLoadBalancer.hasRuleArn (lb : FakeLoadBalancer) (arn : String) : Bool :=
  lb.listeners.any (fun kl => kl.2.hasRuleArn arn)

/-- The balancer scan of the in-place priority write. -/
def setFirstRuleInLBs (arn : String) (p : Nat) :
    List (String × FakeLoadBalancer) → List (String × FakeLoadBalancer)
  | [] => []
  | (k, lb) :: rest =>
    if lb.hasRuleArn arn then
      (k, { lb with listeners := setFirstRuleInListeners arn p lb.listeners }) :: rest
    else (k, lb) :: setFirstRuleInLBs arn p rest

/-- `given_rule.priority = priority` written back into the store: the first
rule of the `describe_rules` scan order with the given arn (the object the
source mutates in place) gets the new priority. -/
def ELBv2Backend.setFirstRulePriority (b : ELBv2Backend) (arn : String) (p : Nat) :
    ELBv2Backend :=
  { b with load_balancers := setFirstRuleInLBs arn p b.load_balancers }

/-- Phase 1 of `set_rule_priorities` (pure validation against the
un-mutated store): each requested rule must exist, and the requested
priority must not equal the priority of ANY rule — the requested rule
itself included — of the listener named by the found rule. The `IndexError`
arm models `listeners[0]` on an empty result and is unreachable
(`describe_listeners` raises first). -/
def validateRulePriorities (b : ELBv2Backend) :
    List RulePriorityPair → Option ElbError
  | [] => none
  | rp :: rest =>
    match b.describe_rules none (some [rp.rule_arn]) with
    | .error e => some e
    | .ok [] => some .RuleNotFoundError
    | .ok (given_rule :: _) =>
      match b.describe_listeners none [given_rule.listener_arn] with
      | .error e => some e
      | .ok [] => some .IndexError
      | .ok (listener :: _) =>
        if listener.rules.any (fun r => decide (r.priority = .num rp.priority)) then
          some .PriorityInUseError
        else validateRulePriorities b rest

/-- Phase 2 of `set_rule_priorities`: re-find each rule on the
progressively mutated store and write its new priority. -/
def applyRulePriorities :
    ELBv2Backend → List RulePriorityPair → List FakeRule →
    Except ElbError (List FakeRule) × ELBv2Backend
  | b, [], acc => (.ok acc, b)
  | b, rp :: rest, acc =>
    match b.describe_rules none (some [rp.rule_arn]) with
    | .error e => (.error e, b)
    | .ok [] => (.error .RuleNotFoundError, b)
    | .ok (given_rule :: _) =>
      applyRulePriorities (b.setFirstRulePriority given_rule.arn rp.priority) rest
        (acc ++ [{ given_rule with priority := .num rp.priority }])

/-- `ELBv2Backend.set_rule_priorities`. Phase 0 rejects a batch in which
some priority value occurs more than once. (The source iterates over
`set(priorities)` — an implementation-defined order — raising for the
first duplicated value it meets; the embedding scans the list itself,
which raises under exactly the same condition, possibly reporting a
different, equally duplicated, value.) -/
def ELBv2Backend.set_rule_priorities (b : ELBv2Backend)
    (rule_priorities : List RulePriorityPair) :
    Except ElbError (List FakeRule) × ELBv2Backend :=
  let priorities := rule_priorities.map RulePriorityPair.priority
  match priorities.find? (fun p => decide (1 < priorities.count p)) with
  | some p => (.error (.DuplicatePriorityError p), b)
  | none =>
    match validateRulePriorities b rule_priorities with
    | some e => (.error e, b)
    | none => applyRulePriorities b rule_priorities []

/-! ### Ordered-dict lemmas -/

theorem odGet_odSet_self {α : Type} (m : List (String × α)) (k : String) (v : α) :
    odGet (odSet m k v) k = some v := by
  induction m with
  | nil => simp [odSet, odGet]
  | cons hd t ih =>
    obtain ⟨k', v'⟩ := hd
    by_cases hk : k' = k
    · subst hk; simp [odSet, odGet]
    · simp [odSet, odGet, hk, ih]

theorem odGet_odSet_ne {α : Type} (m : List (String × α)) (k k2 : String) (v : α)
    (h : k ≠ k2) : odGet (odSet m k v) k2 = odGet m k2 := by
  induction m with
  | nil => simp [odSet, odGet, h]
  | cons hd t ih =>
    obtain ⟨k', v'⟩ := hd
    by_cases hk : k' = k
    · subst hk; simp [odSet, odGet, h]
    · simp [odSet, odGet, hk, ih]

theorem odSet_map_fst_of_mem {α : Type} (m : List (String × α)) (k : String) (v : α)
    (h : (odGet m k).isSome) :
    (odSet m k v).map Prod.fst = m.map Prod.fst := by
  induction m with
  | nil => simp [odGet] at h
  | cons hd t ih =>
    obtain ⟨k', v'⟩ := hd
    by_cases hk : k' = k
    · subst hk; simp [odSet]
    · simp [odGet, hk] at h
      simp [odSet, hk, ih h]

theorem odSet_length_of_mem {α : Type} (m : List (String × α)) (k : String) (v : α)
    (h : (odGet m k).isSome) : (odSet m k v).length = m.length := by
  have := odSet_map_fst_of_mem m k v h
  calc (odSet m k v).length = ((odSet m k v).map Prod.fst).length := by simp
    _ = (m.map Prod.fst).length := by rw [this]
    _ = m.length := by simp

theorem odSet_length_of_not_mem {α : Type} (m : List (String × α)) (k : String)
    (v : α) (h : odGet m k = none) : (odSet m k v).length = m.length + 1 := by
  induction m with
  | nil => simp [odSet]
  | cons hd t ih =>
    obtain ⟨k', v'⟩ := hd
    by_cases hk : k' = k
    · subst hk; simp [odGet] at h
    · simp [odGet, hk] at h
      simp [odSet, hk, ih h]

theorem odPop_of_none {α : Type} (m : List (String × α)) (k : String)
    (h : odGet m k = none) : odPop m k = m := by
  induction m with
  | nil => simp [odPop]
  | cons hd t ih =>
    obtain ⟨k', v'⟩ := hd
    by_cases hk : k' = k
    · subst hk; simp [odGet] at h
    · simp [odGet, hk] at h
      simp [odPop, hk, ih h]

theorem odGet_odPop_ne {α : Type} (m : List (String × α)) (k k2 : String)
    (h : k2 ≠ k) : odGet (odPop m k) k2 = odGet m k2 := by
  induction m with
  | nil => simp [odPop]
  | cons hd t ih =>
    obtain ⟨k', v'⟩ := hd
    by_cases hk : k' = k
    · subst hk; simp [odPop, odGet, Ne.symm h]
    · simp [odPop, odGet, hk, ih]

theorem odGet_odPop_none {α : Type} (m : List (String × α)) (k k2 : String)
    (h : odGet m k2 = none) : odGet (odPop m k) k2 = none := by
  induction m with
  | nil => simp [odPop, odGet]
  | cons hd t ih =>
    obtain ⟨k', v'⟩ := hd
    by_cases hk2 : k' = k2
    · subst hk2; simp [odGet] at h
    · simp [odGet, hk2] at h
      by_cases hk : k' = k
      · subst hk; simp [odPop, h]
      · simp [odPop, odGet, hk, hk2, ih h]

theorem odGet_isSome_iff {α : Type} (m : List (String × α)) (k : String) :
    (odGet m k).isSome ↔ k ∈ m.map Prod.fst := by
  induction m with
  | nil => simp [odGet]
  | cons hd t ih =>
    obtain ⟨k', v'⟩ := hd
    by_cases hk : k' = k
    · subst hk; simp [odGet]
    · simp [odGet, hk, ih, Ne.symm hk]

/-! ### C8: the 10-key tag cap -/

/-- C8: for every load balancer and target group the tag map never grows
past 10 keys: `add_tag` keeps a map of at most 10 keys at most 10 keys
long; with exactly 10 keys, a fresh key fails with `TooManyTagsError` and
leaves the resource untouched, while a key already present is updated in
place (same key set, new value). -/
theorem tag_map_cap (lb : FakeLoadBalancer) (tg : FakeTargetGroup) (k v : String) :
    ((lb.tags.length ≤ 10 → ((lb.add_tag k v).2).tags.length ≤ 10)
      ∧ (lb.tags.length = 10 → odGet lb.tags k = none →
          lb.add_tag k v = (.error .TooManyTagsError, lb))
      ∧ (lb.tags.length = 10 → (odGet lb.tags k).isSome →
          (lb.add_tag k v).1 = .ok ()
            ∧ odGet ((lb.add_tag k v).2).tags k = some v
            ∧ ((lb.add_tag k v).2).tags.map Prod.fst = lb.tags.map Prod.fst))
    ∧ ((tg.tags.length ≤ 10 → ((tg.add_tag k v).2).tags.length ≤ 10)
      ∧ (tg.tags.length = 10 → odGet tg.tags k = none →
          tg.add_tag k v = (.error .TooManyTagsError, tg))
      ∧ (tg.tags.length = 10 → (odGet tg.tags k).isSome →
          (tg.add_tag k v).1 = .ok ()
            ∧ odGet ((tg.add_tag k v).2).tags k = some v
            ∧ ((tg.add_tag k v).2).tags.map Prod.fst = tg.tags.map Prod.fst)) := by
  constructor
  · refine ⟨?_, ?_, ?_⟩
    · intro hle
      by_cases hc : 10 ≤ lb.tags.length ∧ (odGet lb.tags k).isNone
      · simp only [FakeLoadBalancer.add_tag, if_pos hc]
        exact hle
      · simp only [FakeLoadBalancer.add_tag, if_neg hc]
        by_cases hmem : (odGet lb.tags k).isSome
        · rw [odSet_length_of_mem _ _ _ hmem]; exact hle
        · have hnone : odGet lb.tags k = none := Option.not_isSome_iff_eq_none.mp hmem
          rw [odSet_length_of_not_mem _ _ _ hnone]
          have hlt : ¬ 10 ≤ lb.tags.length :=
            fun h10 => hc ⟨h10, Option.isNone_iff_eq_none.mpr hnone⟩
          omega
    · intro h10 hnone
      have hc : 10 ≤ lb.tags.length ∧ (odGet lb.tags k).isNone :=
        ⟨le_of_eq h10.symm, Option.isNone_iff_eq_none.mpr hnone⟩
      simp only [FakeLoadBalancer.add_tag, if_pos hc]
    · intro _ hmem
      have hc : ¬ (10 ≤ lb.tags.length ∧ (odGet lb.tags k).isNone) := by
        rintro ⟨-, hn⟩
        rw [Option.isNone_iff_eq_none] at hn
        rw [hn] at hmem
        simp at hmem
      simp only [FakeLoadBalancer.add_tag, if_neg hc]
      exact ⟨by trivial, odGet_odSet_self _ _ _, odSet_map_fst_of_mem _ _ _ hmem⟩
  · refine ⟨?_, ?_, ?_⟩
    · intro hle
      by_cases hc : 10 ≤ tg.tags.length ∧ (odGet tg.tags k).isNone
      · simp only [FakeTargetGroup.add_tag, if_pos hc]
        exact hle
      · simp only [FakeTargetGroup.add_tag, if_neg hc]
        by_cases hmem : (odGet tg.tags k).isSome
        · rw [odSet_length_of_mem _ _ _ hmem]; exact hle
        · have hnone : odGet tg.tags k = none := Option.not_isSome_iff_eq_none.mp hmem
          rw [odSet_length_of_not_mem _ _ _ hnone]
          have hlt : ¬ 10 ≤ tg.tags.length :=
            fun h10 => hc ⟨h10, Option.isNone_iff_eq_none.mpr hnone⟩
          omega
    · intro h10 hnone
      have hc : 10 ≤ tg.tags.length ∧ (odGet tg.tags k).isNone :=
        ⟨le_of_eq h10.symm, Option.isNone_iff_eq_none.mpr hnone⟩
      simp only [FakeTargetGroup.add_tag, if_pos hc]
    · intro _ hmem
      have hc : ¬ (10 ≤ tg.tags.length ∧ (odGet tg.tags k).isNone) := by
        rintro ⟨-, hn⟩
        rw [Option.isNone_iff_eq_none] at hn
        rw [hn] at hmem
        simp at hmem
      simp only [FakeTargetGroup.add_tag, if_neg hc]
      exact ⟨by trivial, odGet_odSet_self _ _ _, odSet_map_fst_of_mem _ _ _ hmem⟩

/-- Ten distinct tag keys. -/
def tags10 : List (String × String) :=
  [("k0", "v"), ("k1", "v"), ("k2", "v"), ("k3", "v"), ("k4", "v"),
   ("k5", "v"), ("k6", "v"), ("k7", "v"), ("k8", "v"), ("k9", "v")]

/-- A load balancer carrying ten tags. -/
def lbTags : FakeLoadBalancer :=
  { name := "my-lb", scheme := "internet-facing", security_groups := [],
    subnets := ["subnet-1"], vpc_id := "vpc-1", listeners := [],
    tags := tags10, arn := "arn-lb-tags",
    dns_name := "my-lb-1.us-east-1.elb.amazonaws.com",
    state := "active", loadbalancer_type := "application" }

/-- A target group carrying ten tags. -/
def tgTags : FakeTargetGroup :=
  { name := "my-tg", arn := "arn-tg-tags", vpc_id := "vpc-1",
    protocol := some "HTTP", port := 80, load_balancer_arns := [],
    tags := tags10, targets := [] }

theorem tag_map_cap_witness :
    lbTags.add_tag "k10" "w" = (.error .TooManyTagsError, lbTags)
      ∧ (lbTags.add_tag "k3" "w").1 = .ok ()
      ∧ odGet ((lbTags.add_tag "k3" "w").2).tags "k3" = some "w"
      ∧ tgTags.add_tag "k10" "w" = (.error .TooManyTagsError, tgTags)
      ∧ (tgTags.add_tag "k3" "w").1 = .ok () :=
  ⟨(tag_map_cap lbTags tgTags "k10" "w").1.2.1 (by decide) (by decide),
   ((tag_map_cap lbTags tgTags "k3" "w").1.2.2 (by decide) (by decide)).1,
   ((tag_map_cap lbTags tgTags "k3" "w").1.2.2 (by decide) (by decide)).2.1,
   (tag_map_cap lbTags tgTags "k10" "w").2.2.1 (by decide) (by decide),
   ((tag_map_cap lbTags tgTags "k3" "w").2.2.2 (by decide) (by decide)).1⟩

/-! ### C9: registration is an upsert keyed by target id -/

/-- C9: re-registering an already registered target id keeps exactly one
membership entry for that id (same key sequence as before, count one),
now carrying the port of the latest registration (the group's port when
the registration names none). -/
theorem register_targets_upsert (tg : FakeTargetGroup) (t : TargetDesc)
    (hkeys : (tg.targets.map Prod.fst).Nodup)
    (hreg : (odGet tg.targets t.id).isSome) :
    odGet (tg.register [t]).targets t.id = some { id := t.id, port := t.port.getD tg.port }
      ∧ (tg.register [t]).targets.map Prod.fst = tg.targets.map Prod.fst
      ∧ (tg.register [t]).targets.countP (fun kv => kv.1 == t.id) = 1 := by
  have hreg1 : tg.register [t]
      = { tg with targets := odSet tg.targets t.id { id := t.id, port := t.port.getD tg.port } } := by
    simp [FakeTargetGroup.register]
  rw [hreg1]
  refine ⟨odGet_odSet_self _ _ _, odSet_map_fst_of_mem _ _ _ hreg, ?_⟩
  have hmm : t.id ∈ tg.targets.map Prod.fst := (odGet_isSome_iff _ _).mp hreg
  have hcount : (tg.targets.map Prod.fst).count t.id = 1 :=
    List.count_eq_one_of_mem hkeys hmm
  have hfst := odSet_map_fst_of_mem tg.targets t.id
    { id := t.id, port := t.port.getD tg.port } hreg
  calc (odSet tg.targets t.id { id := t.id, port := t.port.getD tg.port }).countP
        (fun kv => kv.1 == t.id)
      = ((odSet tg.targets t.id { id := t.id, port := t.port.getD tg.port }).map
          Prod.fst).count t.id := by
        rw [List.count, List.countP_map]
        rfl
    _ = (tg.targets.map Prod.fst).count t.id := by rw [hfst]
    _ = 1 := hcount

/-- A target group with one registered target. -/
def tgReg : FakeTargetGroup :=
  { name := "reg-tg", arn := "arn-tg-reg", vpc_id := "vpc-1",
    protocol := some "HTTP", port := 80, load_balancer_arns := [],
    tags := [], targets := [("i-1234", { id := "i-1234", port := 8080 })] }

theorem register_targets_upsert_witness :
    odGet (tgReg.register [{ id := "i-1234", port := some 9090 }]).targets "i-1234"
        = some { id := "i-1234", port := 9090 }
      ∧ (tgReg.register [{ id := "i-1234", port := some 9090 }]).targets.countP
          (fun kv => kv.1 == "i-1234") = 1 := by
  have h := register_targets_upsert tgReg { id := "i-1234", port := some 9090 }
    (by decide) (by decide)
  exact ⟨h.1, h.2.2⟩

/-! ### C10: delete_load_balancer is total, delete_listener is not -/

theorem deleteListenerFromLBs_not_found (arn : String)
    (lbs : List (String × FakeLoadBalancer))
    (h : ∀ p ∈ lbs, odGet p.2.listeners arn = none) :
    deleteListenerFromLBs arn lbs = (.error .ListenerNotFoundError, lbs) := by
  induction lbs with
  | nil => rfl
  | cons hd t ih =>
    obtain ⟨k, lb⟩ := hd
    have h1 : odGet lb.listeners arn = none := h (k, lb) (by simp)
    have h2 := ih (fun p hp => h p (by simp [hp]))
    simp [deleteListenerFromLBs, h1, h2]

/-- C10: `delete_load_balancer` never raises — on an arn that is not a
stored load balancer it returns successfully with the store unchanged —
while `delete_listener` on an arn that no balancer's listener dict holds
raises `ListenerNotFoundError` (and changes nothing). -/
theorem delete_load_balancer_total (b : ELBv2Backend) (arn : String) :
    (b.delete_load_balancer arn).1 = .ok ()
      ∧ (odGet b.load_balancers arn = none → (b.delete_load_balancer arn).2 = b)
      ∧ ((∀ p ∈ b.load_balancers, odGet p.2.listeners arn = none) →
          b.delete_listener arn = (.error .ListenerNotFoundError, b)) := by
  refine ⟨rfl, ?_, ?_⟩
  · intro h
    simp [ELBv2Backend.delete_load_balancer, odPop_of_none _ _ h]
  · intro h
    simp [ELBv2Backend.delete_listener, deleteListenerFromLBs_not_found arn _ h]

/-- A one-balancer store for the C10 witness. -/
def bDel : ELBv2Backend :=
  { region_name := "us-east-1", target_groups := [],
    load_balancers :=
      [("arn-lb-d",
        { name := "del-lb", scheme := "internet-facing", security_groups := [],
          subnets := ["subnet-1"], vpc_id := "vpc-1", listeners := [],
          tags := [], arn := "arn-lb-d",
          dns_name := "del-lb-1.us-east-1.elb.amazonaws.com",
          state := "active", loadbalancer_type := "application" })] }

theorem delete_load_balancer_total_witness :
    (bDel.delete_load_balancer "arn-missing").1 = .ok ()
      ∧ (bDel.delete_load_balancer "arn-missing").2 = bDel
      ∧ bDel.delete_listener "arn-missing" = (.error .ListenerNotFoundError, bDel) := by
  have h := delete_load_balancer_total bDel "arn-missing"
  exact ⟨h.1, h.2.1 (by decide), h.2.2 (by decide)⟩

/-! ### C3: deregistering with an unknown target id -/

theorem deregister_error_of_unknown (tg : FakeTargetGroup) (batch : List TargetDesc)
    (h : ∃ t ∈ batch, odGet tg.targets t.id = none) :
    (tg.deregister batch).1 = .error .InvalidTargetError := by
  induction batch generalizing tg with
  | nil => simp at h
  | cons t rest ih =>
    cases hmem : odGet tg.targets t.id with
    | none => simp [FakeTargetGroup.deregister, hmem]
    | some tv =>
      obtain ⟨t', ht'mem, ht'⟩ := h
      rcases List.mem_cons.mp ht'mem with h1 | h1
      · subst h1
        rw [hmem] at ht'
        cases ht'
      · have hnone' : odGet (odPop tg.targets t.id) t'.id = none :=
          odGet_odPop_none _ _ _ ht'
        have hrec := ih { tg with targets := odPop tg.targets t.id }
          ⟨t', h1, hnone'⟩
        simpa [FakeTargetGroup.deregister, hmem] using hrec

theorem deregister_frame (tg : FakeTargetGroup) (batch : List TargetDesc) (k : String)
    (h : ∀ t ∈ batch, t.id ≠ k) :
    odGet (tg.deregister batch).2.targets k = odGet tg.targets k := by
  induction batch generalizing tg with
  | nil => rfl
  | cons t rest ih =>
    have hk : t.id ≠ k := h t (by simp)
    cases hmem : odGet tg.targets t.id with
    | none => simp [FakeTargetGroup.deregister, hmem]
    | some tv =>
      have h2 := ih { tg with targets := odPop tg.targets t.id }
        (fun t' ht' => h t' (by simp [ht']))
      rw [show ({ tg with targets := odPop tg.targets t.id } : FakeTargetGroup).targets
            = odPop tg.targets t.id from rfl,
          odGet_odPop_ne tg.targets t.id k (Ne.symm hk)] at h2
      simpa [FakeTargetGroup.deregister, hmem] using h2

/-- C3 (amended): when some id of the batch is not registered,
`deregister_targets` raises `InvalidTargetError`; the stored group keeps
every membership whose id is outside the batch, but the batch ids popped
before the failing one are gone — the map is not, in general, left as it
was. -/
theorem deregister_targets_unknown (b : ELBv2Backend) (arn : String)
    (tg : FakeTargetGroup) (batch : List TargetDesc)
    (htg : odGet b.target_groups arn = some tg)
    (h : ∃ t ∈ batch, odGet tg.targets t.id = none) :
    (b.deregister_targets arn batch).1 = .error .InvalidTargetError
      ∧ ∃ tg', odGet (b.deregister_targets arn batch).2.target_groups arn = some tg'
          ∧ ∀ k, (∀ t ∈ batch, t.id ≠ k) → odGet tg'.targets k = odGet tg.targets k := by
  rcases hde : tg.deregister batch with ⟨r, tg2⟩
  have herr : r = .error .InvalidTargetError := by
    have h0 := deregister_error_of_unknown tg batch h
    rw [hde] at h0
    exact h0
  have hframe : ∀ k, (∀ t ∈ batch, t.id ≠ k) → odGet tg2.targets k = odGet tg.targets k := by
    intro k hk
    have h0 := deregister_frame tg batch k hk
    rw [hde] at h0
    exact h0
  refine ⟨?_, tg2, ?_, hframe⟩
  · simp [ELBv2Backend.deregister_targets, htg, hde, herr]
  · simp [ELBv2Backend.deregister_targets, htg, hde, odGet_odSet_self]

/-- A target group with one registered target, for the C3 statements. -/
def tgDereg : FakeTargetGroup :=
  { name := "dereg-tg", arn := "arn-tg-dereg", vpc_id := "vpc-1",
    protocol := some "HTTP", port := 80, load_balancer_arns := [],
    tags := [], targets := [("i-aaa", { id := "i-aaa", port := 80 })] }

/-- C3 counterexample: deregistering `[i-aaa, i-bbb]` from a group whose
only member is `i-aaa` raises the invalid-target error, yet `i-aaa` has
been removed — the membership map is NOT left exactly as it was. -/
theorem deregister_partial_mutation_cex :
    (tgDereg.deregister
        [{ id := "i-aaa", port := none }, { id := "i-bbb", port := none }]).1
      = .error .InvalidTargetError
    ∧ (tgDereg.deregister
        [{ id := "i-aaa", port := none }, { id := "i-bbb", port := none }]).2.targets = []
    ∧ tgDereg.targets ≠ [] := by
  decide

/-- A backend storing `tgDereg`, for the C3 witness. -/
def bDereg : ELBv2Backend :=
  { region_name := "us-east-1", target_groups := [("arn-tg-dereg", tgDereg)],
    load_balancers := [] }

theorem deregister_targets_unknown_witness :
    (bDereg.deregister_targets "arn-tg-dereg" [{ id := "i-zzz", port := none }]).1
      = .error .InvalidTargetError :=
  (deregister_targets_unknown bDereg "arn-tg-dereg" tgDereg
    [{ id := "i-zzz", port := none }] (by decide) (by decide)).1

/-! ### Fixtures shared by the rule-priority claims -/

/-- A non-default rule at priority 5. -/
def ruleA : FakeRule :=
  { listener_arn := "arn-listener-1", arn := "arn-rule-a", conditions := [],
    priority := .num 5, actions := [], is_default := false }

/-- A non-default rule at priority 7. -/
def ruleB : FakeRule :=
  { listener_arn := "arn-listener-1", arn := "arn-rule-b", conditions := [],
    priority := .num 7, actions := [], is_default := false }

/-- The default rule of the fixture listener. -/
def ruleDef1 : FakeRule :=
  { listener_arn := "arn-listener-1", arn := "arn-rule-default-1",
    conditions := [], priority := .defaultSentinel, actions := [],
    is_default := true }

/-- A listener holding the two non-default rules. -/
def listener1 : FakeListener :=
  { load_balancer_arn := "arn-lb-1", arn := "arn-listener-1",
    protocol := "HTTP", port := 80, ssl_policy := none, certificate := none,
    certificates := [], default_actions := [],
    non_default_rules := [("arn-rule-a", ruleA), ("arn-rule-b", ruleB)],
    default_rule := ruleDef1, tags := [] }

/-- The fixture balancer. -/
def lbRules : FakeLoadBalancer :=
  { name := "rules-lb", scheme := "internet-facing", security_groups := [],
    subnets := ["subnet-1"], vpc_id := "vpc-1",
    listeners := [("arn-listener-1", listener1)], tags := [],
    arn := "arn-lb-1", dns_name := "rules-lb-1.us-east-1.elb.amazonaws.com",
    state := "active", loadbalancer_type := "application" }

/-- The fixture region store: one balancer, one listener, rules at
priorities 5 and 7 plus the default rule. -/
def bRules : ELBv2Backend :=
  { region_name := "us-east-1", target_groups := [],
    load_balancers := [("arn-lb-1", lbRules)] }

/-! ### C5: duplicate priorities within one batch -/

/-- C5: a `set_rule_priorities` batch in which two distinct assignments
(for two distinct rules) request the same priority value fails whole with
`DuplicatePriorityError`, the store untouched. -/
theorem set_rule_priorities_duplicate_batch (b : ELBv2Backend)
    (rps : List RulePriorityPair) (i j : Nat) (hi : i < rps.length)
    (hj : j < rps.length) (hij : i ≠ j)
    (hp : rps[i].priority = rps[j].priority)
    (harn : rps[i].rule_arn ≠ rps[j].rule_arn) :
    ∃ p, b.set_rule_priorities rps = (.error (.DuplicatePriorityError p), b) := by
  have hnd : ¬ (rps.map RulePriorityPair.priority).Nodup := by
    intro hnd
    have hinj := List.nodup_iff_injective_get.mp hnd
    have hgi : i < (rps.map RulePriorityPair.priority).length := by simpa using hi
    have hgj : j < (rps.map RulePriorityPair.priority).length := by simpa using hj
    have heq : (rps.map RulePriorityPair.priority).get ⟨i, hgi⟩
        = (rps.map RulePriorityPair.priority).get ⟨j, hgj⟩ := by
      simp only [List.get_eq_getElem, List.getElem_map]
      exact hp
    have := hinj heq
    exact hij (by simpa using congrArg Fin.val this)
  rw [List.nodup_iff_count_le_one] at hnd
  push_neg at hnd
  obtain ⟨a, ha⟩ := hnd
  have hmem : a ∈ rps.map RulePriorityPair.priority := by
    by_contra hnm
    rw [List.count_eq_zero_of_not_mem hnm] at ha
    omega
  have hsome : ((rps.map RulePriorityPair.priority).find?
      (fun p => decide (1 < (rps.map RulePriorityPair.priority).count p))).isSome := by
    rw [List.find?_isSome]
    exact ⟨a, hmem, by simpa using ha⟩
  obtain ⟨p, hfp⟩ := Option.isSome_iff_exists.mp hsome
  exact ⟨p, by simp [ELBv2Backend.set_rule_priorities, hfp]⟩

theorem set_rule_priorities_duplicate_batch_witness :
    ∃ p, bRules.set_rule_priorities
        [{ rule_arn := "arn-rule-a", priority := 9 },
         { rule_arn := "arn-rule-b", priority := 9 }]
      = (.error (.DuplicatePriorityError p), bRules) :=
  set_rule_priorities_duplicate_batch bRules
    [{ rule_arn := "arn-rule-a", priority := 9 },
     { rule_arn := "arn-rule-b", priority := 9 }]
    0 1 (by decide) (by decide) (by decide) (by decide) (by decide)

/-! ### C6: host-header condition limits -/

/-- A host-header condition carrying the legacy `Values` list and/or a
`HostHeaderConfig` (collapsed to its `Values`). -/
def hostHeaderCond (vals cfg : Option (List String)) : Condition :=
  { emptyCondition with
      field := some "host-header", values := vals, hostHeaderConfig := cfg }

/-- C6 (amended): rule validation enforces the one-value cap of
host-header conditions only on the legacy top-level `Values` list — two
values there fail with the too-many-values error, while two values inside
`HostHeaderConfig` pass — and enforces the 128-character value limit on
both channels: a single value of length 129 fails, of length 128 passes. -/
theorem host_header_condition_limits (v1 v2 c1 c2 v129 v128 : String)
    (hc1 : c1.length ≤ 128) (hc2 : c2.length ≤ 128)
    (h129 : v129.length = 129) (h128 : v128.length = 128) :
    validate_conditions [hostHeaderCond (some [v1, v2]) none]
      = some (.InvalidConditionValueError
          "The 'host-header' field contains too many values; the limit is '1'")
    ∧ validate_conditions [hostHeaderCond none (some [c1, c2])] = none
    ∧ validate_conditions [hostHeaderCond (some [v129]) none]
      = some (.InvalidConditionValueError
          "The 'host-header' value is too long; the limit is '128'")
    ∧ validate_conditions [hostHeaderCond none (some [v129])]
      = some (.InvalidConditionValueError
          "The 'host-header' value is too long; the limit is '128'")
    ∧ validate_conditions [hostHeaderCond (some [v128]) none] = none
    ∧ validate_conditions [hostHeaderCond none (some [v128])] = none := by
  have hc1' : ¬ 128 < c1.length := by omega
  have hc2' : ¬ 128 < c2.length := by omega
  have h129' : 128 < v129.length := by omega
  have h128' : ¬ 128 < v128.length := by omega
  refine ⟨?_, ?_, ?_, ?_, ?_, ?_⟩ <;>
    simp [validate_conditions, validate_condition, conditionFields, emptyCondition,
      hostHeaderCond, validate_host_header_condition, hostHeaderValuesCheck,
      hc1', hc2', h129', h128']

/-- C6 counterexample: a host-header condition carrying TWO values (inside
`HostHeaderConfig`) passes rule validation, so a host-header condition
with 2 values does not always fail. -/
theorem host_header_two_config_values_cex :
    validate_conditions
      [hostHeaderCond none (some ["a.example.com", "b.example.com"])] = none := by
  decide

/-- A 128-character value. -/
def s128 : String :=
  "aaaaaaaaaaaaaaaaaaaaaaaaaaaaaaaaaaaaaaaaaaaaaaaaaaaaaaaaaaaaaaaaaaaaaaaaaaaaaaaaaaaaaaaaaaaaaaaaaaaaaaaaaaaaaaaaaaaaaaaaaaaaaaaa"

/-- A 129-character value. -/
def s129 : String :=
  "aaaaaaaaaaaaaaaaaaaaaaaaaaaaaaaaaaaaaaaaaaaaaaaaaaaaaaaaaaaaaaaaaaaaaaaaaaaaaaaaaaaaaaaaaaaaaaaaaaaaaaaaaaaaaaaaaaaaaaaaaaaaaaaaa"

set_option maxRecDepth 4096

theorem host_header_condition_limits_witness :
    s129.length = 129 ∧ s128.length = 128
    ∧ validate_conditions [hostHeaderCond (some ["a", "b"]) none]
      = some (.InvalidConditionValueError
          "The 'host-header' field contains too many values; the limit is '1'")
    ∧ validate_conditions [hostHeaderCond (some [s129]) none]
      = some (.InvalidConditionValueError
          "The 'host-header' value is too long; the limit is '128'")
    ∧ validate_conditions [hostHeaderCond (some [s128]) none] = none := by
  have h := host_header_condition_limits "a" "b" "a" "b" s129 s128
    (by decide) (by decide) (by decide) (by decide)
  exact ⟨by decide, by decide, h.1, h.2.2.1, h.2.2.2.2.1⟩

/-! ### C1: create_listener and the HTTPS certificate requirement -/

/-- The arn of the C1 fixture balancer. -/
def lbHttpsArn : String :=
  "arn:aws:elasticloadbalancing:us-east-1:123456789012:loadbalancer/app/https-lb/50dc"

/-- The C1 fixture balancer (no listeners yet). -/
def lbHttps : FakeLoadBalancer :=
  { name := "https-lb", scheme := "internet-facing", security_groups := [],
    subnets := ["subnet-1"], vpc_id := "vpc-1", listeners := [], tags := [],
    arn := lbHttpsArn, dns_name := "https-lb-1.us-east-1.elb.amazonaws.com",
    state := "active", loadbalancer_type := "application" }

/-- The C1 fixture store. -/
def bHttps : ELBv2Backend :=
  { region_name := "us-east-1", target_groups := [],
    load_balancers := [(lbHttpsArn, lbHttps)] }

/-- C1 (code-bug evidence): `create_listener` never checks certificates.
With protocol HTTPS and no certificate it succeeds, and the listener it
returns — and stores — is an HTTPS listener whose certificate list is
empty; the same call with one certificate yields a certificate list of
exactly one entry. -/
theorem create_listener_https_no_certificate :
    ((bHttps.create_listener lbHttpsArn (some "HTTPS") 443 none none [] "x1" "x2").1.toOption.map
        (fun l => (l.protocol, l.certificates))) = some ("HTTPS", [])
    ∧ ((bHttps.create_listener lbHttpsArn (some "HTTPS") 443 none
          (some "arn-cert-1") [] "x1" "x2").1.toOption.map
        (fun l => l.certificates)) = some ["arn-cert-1"]
    ∧ ((bHttps.create_listener lbHttpsArn (some "HTTPS") 443 none none [] "x1" "x2").2.load_balancers.map
        (fun p => p.2.listeners.map (fun q => (q.2.protocol, q.2.certificates))))
      = [[("HTTPS", ([] : List String))]] := by
  refine ⟨?_, ?_, ?_⟩ <;> decide

/-! ### C7: describe_load_balancers with an unknown arn after a known one -/

/-- The C7 fixture balancer, still provisioning. -/
def lbDesc : FakeLoadBalancer :=
  { name := "desc-lb", scheme := "internet-facing", security_groups := [],
    subnets := ["subnet-1"], vpc_id := "vpc-1", listeners := [], tags := [],
    arn := "arn-lb-desc", dns_name := "desc-lb-1.us-east-1.elb.amazonaws.com",
    state := "provisioning", loadbalancer_type := "application" }

/-- The C7 fixture store. -/
def bDesc : ELBv2Backend :=
  { region_name := "us-east-1", target_groups := [],
    load_balancers := [("arn-lb-desc", lbDesc)] }

/-- `lbDesc` after its lazy activation on describe. -/
def lbDescActive : FakeLoadBalancer := { lbDesc with state := "active" }

/-- `bDesc` after describe has activated its balancer. -/
def bDescActive : ELBv2Backend :=
  { bDesc with load_balancers := [("arn-lb-desc", lbDescActive)] }

/-- C7 (code-bug evidence): because `matched_balancer` is never reset
between loop iterations, an unknown arn listed AFTER a matching one is
silently ignored — the call returns the balancers found so far instead of
raising — while the same unknown arn listed first does raise
`LoadBalancerNotFoundError`. -/
theorem describe_load_balancers_stale_match :
    bDesc.describe_load_balancers (some ["arn-lb-desc", "arn-unknown"]) none
      = (.ok [lbDescActive], bDescActive)
    ∧ bDesc.describe_load_balancers (some ["arn-unknown"]) none
      = (.error .LoadBalancerNotFoundError, bDescActive) := by
  refine ⟨?_, ?_⟩ <;> rfl

/-! ### C4: a referenced target group cannot be deleted -/

theorem odGet_eq_none_of_not_mem {α : Type} (m : List (String × α)) (k : String)
    (h : k ∉ m.map Prod.fst) : odGet m k = none := by
  cases hg : odGet m k with
  | none => rfl
  | some v =>
    exact absurd ((odGet_isSome_iff m k).mp (by simp [hg])) h

theorem odGet_odPop_self {α : Type} (m : List (String × α)) (k : String)
    (h : (m.map Prod.fst).Nodup) : odGet (odPop m k) k = none := by
  induction m with
  | nil => simp [odPop, odGet]
  | cons hd t ih =>
    obtain ⟨k', v'⟩ := hd
    simp only [List.map_cons, List.nodup_cons] at h
    by_cases hk : k' = k
    · subst hk
      simp only [odPop, if_pos rfl]
      exact odGet_eq_none_of_not_mem t k' h.1
    · simp [odPop, odGet, hk, ih h.2]

theorem delete_tg_in_use_aux (b : ELBv2Backend) (tgArn : String)
    (tg : FakeTargetGroup) (htg : odGet b.target_groups tgArn = some tg)
    (huse : b.any_listener_using tgArn = true) :
    b.delete_target_group tgArn
      = (.error (.ResourceInUseError
          ("The target group '" ++ tgArn ++
           "' is currently in use by a listener or a rule")), b) := by
  simp [ELBv2Backend.delete_target_group, htg, huse]

theorem delete_tg_free_aux (b : ELBv2Backend) (tgArn : String)
    (tg : FakeTargetGroup) (htg : odGet b.target_groups tgArn = some tg)
    (hfree : b.any_listener_using tgArn = false) :
    b.delete_target_group tgArn
      = (.ok tg, { b with target_groups := odPop b.target_groups tgArn }) := by
  simp [ELBv2Backend.delete_target_group, htg, hfree]

/-- C4: deleting a target group that some rule action (default or
non-default, in any listener of any balancer of the region) references
fails with `ResourceInUseError` and leaves the store unchanged; deleting
one that no rule action references succeeds and removes that arn from the
store; in particular, once `delete_rule` has removed the referencing rule
(so no rule action uses the group any more), the same delete succeeds. -/
theorem delete_target_group_referential_block (b b' : ELBv2Backend)
    (tgArn ruleArn : String) :
    (∀ tg, odGet b.target_groups tgArn = some tg →
        b.any_listener_using tgArn = true →
        b.delete_target_group tgArn
          = (.error (.ResourceInUseError
              ("The target group '" ++ tgArn ++
               "' is currently in use by a listener or a rule")), b))
    ∧ (∀ tg, odGet b.target_groups tgArn = some tg →
        b.any_listener_using tgArn = false →
        b.delete_target_group tgArn
            = (.ok tg, { b with target_groups := odPop b.target_groups tgArn })
          ∧ ((b.target_groups.map Prod.fst).Nodup →
              odGet (b.delete_target_group tgArn).2.target_groups tgArn = none))
    ∧ (b.delete_rule ruleArn = (.ok (), b') →
        ∀ tg, odGet b'.target_groups tgArn = some tg →
        b'.any_listener_using tgArn = false →
        (b'.delete_target_group tgArn).1 = .ok tg
          ∧ ((b'.target_groups.map Prod.fst).Nodup →
              odGet (b'.delete_target_group tgArn).2.target_groups tgArn = none)) := by
  refine ⟨fun tg htg huse => delete_tg_in_use_aux b tgArn tg htg huse, ?_, ?_⟩
  · intro tg htg hfree
    have heq := delete_tg_free_aux b tgArn tg htg hfree
    refine ⟨heq, fun hnd => ?_⟩
    rw [heq]
    exact odGet_odPop_self _ _ hnd
  · intro _ tg htg hfree
    have heq := delete_tg_free_aux b' tgArn tg htg hfree
    refine ⟨by rw [heq], fun hnd => ?_⟩
    rw [heq]
    exact odGet_odPop_self _ _ hnd

/-- The C4 fixture target group. -/
def tgUsed : FakeTargetGroup :=
  { name := "used-tg", arn := "arn-tg-used", vpc_id := "vpc-1",
    protocol := some "HTTP", port := 80, load_balancer_arns := [],
    tags := [], targets := [] }

/-- A forward action referencing the fixture target group. -/
def actFwd : FakeAction :=
  { type := some "forward", targetGroupArn := some "arn-tg-used",
    forwardConfig := none, fixedResponseConfig := none }

/-- A non-default rule whose action forwards to the fixture group. -/
def ruleFwd : FakeRule :=
  { listener_arn := "arn-listener-2", arn := "arn-rule-fwd", conditions := [],
    priority := .num 1, actions := [actFwd], is_default := false }

/-- The default rule of the C4 fixture listener (no actions). -/
def ruleDef2 : FakeRule :=
  { listener_arn := "arn-listener-2", arn := "arn-rule-default-2",
    conditions := [], priority := .defaultSentinel, actions := [],
    is_default := true }

/-- The C4 fixture listener. -/
def listener2 : FakeListener :=
  { load_balancer_arn := "arn-lb-2", arn := "arn-listener-2",
    protocol := "HTTP", port := 80, ssl_policy := none, certificate := none,
    certificates := [], default_actions := [],
    non_default_rules := [("arn-rule-fwd", ruleFwd)],
    default_rule := ruleDef2, tags := [] }

/-- The C4 fixture balancer. -/
def lbUse : FakeLoadBalancer :=
  { name := "use-lb", scheme := "internet-facing", security_groups := [],
    subnets := ["subnet-1"], vpc_id := "vpc-1",
    listeners := [("arn-listener-2", listener2)], tags := [],
    arn := "arn-lb-2", dns_name := "use-lb-1.us-east-1.elb.amazonaws.com",
    state := "active", loadbalancer_type := "application" }

/-- The C4 fixture store: the target group is referenced by `ruleFwd`. -/
def bUse : ELBv2Backend :=
  { region_name := "us-east-1", target_groups := [("arn-tg-used", tgUsed)],
    load_balancers := [("arn-lb-2", lbUse)] }

theorem delete_target_group_referential_block_witness :
    bUse.delete_target_group "arn-tg-used"
      = (.error (.ResourceInUseError
          "The target group 'arn-tg-used' is currently in use by a listener or a rule"), bUse)
    ∧ ((bUse.delete_rule "arn-rule-fwd").2.delete_target_group "arn-tg-used").1 = .ok tgUsed
    ∧ odGet (((bUse.delete_rule "arn-rule-fwd").2.delete_target_group "arn-tg-used")).2.target_groups
        "arn-tg-used" = none := by
  have h := delete_target_group_referential_block bUse
    (bUse.delete_rule "arn-rule-fwd").2 "arn-tg-used" "arn-rule-fwd"
  have hdel : bUse.delete_rule "arn-rule-fwd"
      = (.ok (), (bUse.delete_rule "arn-rule-fwd").2) := by decide
  have h3 := h.2.2 hdel tgUsed (by decide) (by decide)
  exact ⟨h.1 tgUsed (by decide) (by decide), h3.1, h3.2 (by decide)⟩

/-! ### C2: when does set_rule_priorities succeed? -/

/-- C2 counterexample: re-assigning a rule its OWN current priority fails.
`ruleA` holds priority 5 and no other rule of its listener does, yet the
batch `[(arn-rule-a, 5)]` raises `PriorityInUseError`: phase 1 compares
the requested priority against every rule of the listener, the requested
rule itself included. -/
theorem set_rule_priorities_self_priority_cex :
    bRules.set_rule_priorities [{ rule_arn := "arn-rule-a", priority := 5 }]
      = (.error .PriorityInUseError, bRules)
    ∧ (∀ r ∈ listener1.rules, r.arn ≠ "arn-rule-a" → r.priority ≠ .num 5) := by
  refine ⟨by decide, by decide⟩

theorem setPriorityInRuleList_snd_arns (a : String) (p : Nat)
    (rs : List (String × FakeRule)) :
    ((setPriorityInRuleList a p rs).map Prod.snd).map FakeRule.arn
      = (rs.map Prod.snd).map FakeRule.arn := by
  induction rs with
  | nil => rfl
  | cons hd t ih =>
    obtain ⟨k, r⟩ := hd
    by_cases hr : r.arn = a
    · simp [setPriorityInRuleList, hr]
    · simp [setPriorityInRuleList, hr, ih]

theorem setFirstRulePriority_rule_arns (l : FakeListener) (a : String) (p : Nat) :
    (l.setFirstRulePriority a p).rules.map FakeRule.arn
      = l.rules.map FakeRule.arn := by
  unfold FakeListener.setFirstRulePriority
  by_cases h1 : (l.non_default_rules.any (fun kr => kr.2.arn = a)) = true
  · simp only [h1, if_true, FakeListener.rules, List.map_append]
    rw [setPriorityInRuleList_snd_arns]
  · simp only [h1, if_false, Bool.false_eq_true]
    by_cases h2 : l.default_rule.arn = a
    · simp [h2, FakeListener.rules]
    · simp [h2]

theorem any_arn_eq_of_map_arn_eq (rs1 rs2 : List FakeRule)
    (h : rs1.map FakeRule.arn = rs2.map FakeRule.arn) (a2 : String) :
    rs1.any (fun r => r.arn = a2) = rs2.any (fun r => r.arn = a2) := by
  induction rs1 generalizing rs2 with
  | nil =>
    cases rs2 with
    | nil => rfl
    | cons h2 t2 => simp at h
  | cons h1 t1 ih =>
    cases rs2 with
    | nil => simp at h
    | cons h2 t2 =>
      simp only [List.map_cons, List.cons.injEq] at h
      simp [List.any_cons, h.1, ih t2 h.2]

theorem hasRuleArn_setFirstRulePriority (l : FakeListener) (a a2 : String) (p : Nat) :
    (l.setFirstRulePriority a p).hasRuleArn a2 = l.hasRuleArn a2 := by
  unfold FakeListener.hasRuleArn
  exact any_arn_eq_of_map_arn_eq _ _ (setFirstRulePriority_rule_arns l a p) a2

theorem setFirstRuleInListeners_any (a a2 : String) (p : Nat)
    (ls : List (String × FakeListener)) :
    (setFirstRuleInListeners a p ls).any (fun kl => kl.2.hasRuleArn a2)
      = ls.any (fun kl => kl.2.hasRuleArn a2) := by
  induction ls with
  | nil => rfl
  | cons hd t ih =>
    obtain ⟨k, l⟩ := hd
    by_cases hl : l.hasRuleArn a = true
    · simp [setFirstRuleInListeners, hl, hasRuleArn_setFirstRulePriority]
    · simp [setFirstRuleInListeners, hl, ih]

theorem setFirstRuleInLBs_any (a a2 : String) (p : Nat)
    (lbs : List (String × FakeLoadBalancer)) :
    (setFirstRuleInLBs a p lbs).any (fun kl => kl.2.hasRuleArn a2)
      = lbs.any (fun kl => kl.2.hasRuleArn a2) := by
  induction lbs with
  | nil => rfl
  | cons hd t ih =>
    obtain ⟨k, lb⟩ := hd
    by_cases hlb : lb.hasRuleArn a = true
    · have hlb2 : (lb.listeners.any fun kl => kl.2.hasRuleArn a) = true := hlb
      have hlist := setFirstRuleInListeners_any a a2 p lb.listeners
      simp [setFirstRuleInLBs, FakeLoadBalancer.hasRuleArn, hlb2, hlist]
    · simp [setFirstRuleInLBs, hlb, ih]

theorem matchedRules_eq_nil_iff (b : ELBv2Backend) (a : String) :
    matchedRules b [a] = []
      ↔ (b.load_balancers.any (fun kl => kl.2.hasRuleArn a)) = false := by
  unfold matchedRules FakeLoadBalancer.hasRuleArn FakeListener.hasRuleArn
  rw [List.flatten_eq_nil_iff, List.any_eq_false]
  constructor
  · intro h kl hkl
    rw [Bool.not_eq_true, List.any_eq_false]
    intro kll hkll
    rw [Bool.not_eq_true, List.any_eq_false]
    intro r hr
    have h2 := h _ (List.mem_map_of_mem _ hkl)
    rw [List.flatten_eq_nil_iff] at h2
    have h3 := h2 _ (List.mem_map_of_mem _ hkll)
    rw [List.filter_eq_nil_iff] at h3
    have h4 := h3 r hr
    simp at h4 ⊢
    exact h4
  · intro h ll hll
    rw [List.mem_map] at hll
    obtain ⟨kl, hkl, rfl⟩ := hll
    rw [List.flatten_eq_nil_iff]
    intro fl hfl
    rw [List.mem_map] at hfl
    obtain ⟨kll, hkll, rfl⟩ := hfl
    rw [List.filter_eq_nil_iff]
    intro r hr
    have h2 := h kl hkl
    rw [Bool.not_eq_true, List.any_eq_false] at h2
    have h3 := h2 kll hkll
    rw [Bool.not_eq_true, List.any_eq_false] at h3
    have h4 := h3 r hr
    simp at h4 ⊢
    exact h4

theorem matchedRules_setFirst_ne_nil (b : ELBv2Backend) (a ax : String) (p : Nat)
    (h : matchedRules b [ax] ≠ []) :
    matchedRules (b.setFirstRulePriority a p) [ax] ≠ [] := by
  intro hnil
  apply h
  rw [matchedRules_eq_nil_iff] at hnil ⊢
  rw [← setFirstRuleInLBs_any a ax p b.load_balancers]
  exact hnil

theorem describe_rules_scan_single (b : ELBv2Backend) (a : String) :
    b.describe_rules none (some [a]) = .ok (matchedRules b [a]) := rfl

theorem describe_listeners_of_matched_cons (b : ELBv2Backend) (la : String)
    (l : FakeListener) (tl : List FakeListener)
    (h : matchedListeners b [la] = l :: tl) :
    b.describe_listeners none [la] = .ok (l :: tl) := by
  simp [ELBv2Backend.describe_listeners, h]

/-- The per-assignment precondition of the amended C2 claim, checked
against the pre-call store: the requested rule exists (the first rule of
the scan with that arn), its listener resolves, and the requested priority
equals the priority of NO rule of that listener — the requested rule
itself included. -/
def rulePriorityFree (b : ELBv2Backend) (rp : RulePriorityPair) : Bool :=
  match matchedRules b [rp.rule_arn] with
  | [] => false
  | given_rule :: _ =>
    match matchedListeners b [given_rule.listener_arn] with
    | [] => false
    | listener :: _ =>
      listener.rules.all (fun r => ¬ r.priority = .num rp.priority)

theorem validateRulePriorities_none (b : ELBv2Backend)
    (rps : List RulePriorityPair)
    (h : ∀ rp ∈ rps, rulePriorityFree b rp = true) :
    validateRulePriorities b rps = none := by
  induction rps with
  | nil => rfl
  | cons rp rest ih =>
    have h1 := h rp (by simp)
    unfold rulePriorityFree at h1
    cases hm : matchedRules b [rp.rule_arn] with
    | nil => rw [hm] at h1; cases h1
    | cons r tlr =>
      rw [hm] at h1
      have h1a : (match matchedListeners b [r.listener_arn] with
          | [] => false
          | listener :: _ =>
            listener.rules.all (fun r2 => ¬ r2.priority = Priority.num rp.priority)) = true := h1
      cases hl : matchedListeners b [r.listener_arn] with
      | nil => rw [hl] at h1a; cases h1a
      | cons l tll =>
        rw [hl] at h1a
        have h1b : (l.rules.all (fun r2 => ¬ r2.priority = Priority.num rp.priority)) = true := h1a
        have hfree : (l.rules.any (fun r2 => decide (r2.priority = .num rp.priority))) = false := by
          rw [List.any_eq_false]
          intro r2 hr2
          have h3 := (List.all_eq_true.mp h1b) r2 hr2
          simpa using h3
        simp [validateRulePriorities, describe_rules_scan_single, hm,
          describe_listeners_of_matched_cons b r.listener_arn l tll hl, hfree,
          ih (fun rp' hrp' => h rp' (by simp [hrp']))]

theorem applyRulePriorities_ok (rps : List RulePriorityPair) :
    ∀ (b : ELBv2Backend) (acc : List FakeRule),
      (∀ rp ∈ rps, matchedRules b [rp.rule_arn] ≠ []) →
      ∃ rules b2, applyRulePriorities b rps acc = (.ok rules, b2) := by
  induction rps with
  | nil => exact fun b acc _ => ⟨acc, b, rfl⟩
  | cons rp rest ih =>
    intro b acc h
    have h1 := h rp (by simp)
    cases hm : matchedRules b [rp.rule_arn] with
    | nil => exact absurd hm h1
    | cons r tlr =>
      have hpres : ∀ rp' ∈ rest,
          matchedRules (b.setFirstRulePriority r.arn rp.priority) [rp'.rule_arn] ≠ [] :=
        fun rp' hmem =>
          matchedRules_setFirst_ne_nil b r.arn rp'.rule_arn rp.priority
            (h rp' (by simp [hmem]))
      obtain ⟨rules, b2, happ⟩ := ih (b.setFirstRulePriority r.arn rp.priority)
        (acc ++ [{ r with priority := .num rp.priority }]) hpres
      refine ⟨rules, b2, ?_⟩
      simp [applyRulePriorities, describe_rules_scan_single, hm, happ]

/-- C2 (amended): a `set_rule_priorities` batch succeeds whenever its
requested priorities are pairwise distinct and, for every assignment, the
requested rule exists and its requested priority is held by NO rule of its
listener — including the requested rule itself (re-assigning a rule its
own current priority is NOT allowed; see the counterexample). -/
theorem set_rule_priorities_success (b : ELBv2Backend)
    (rps : List RulePriorityPair)
    (hnodup : (rps.map RulePriorityPair.priority).Nodup)
    (hvalid : ∀ rp ∈ rps, rulePriorityFree b rp = true) :
    ∃ rules b2, b.set_rule_priorities rps = (.ok rules, b2) := by
  have hfind : ((rps.map RulePriorityPair.priority).find?
      (fun p => decide (1 < (rps.map RulePriorityPair.priority).count p))) = none := by
    rw [List.find?_eq_none]
    intro x _
    have := List.nodup_iff_count_le_one.mp hnodup x
    simp only [decide_eq_true_eq]
    omega
  have hval : validateRulePriorities b rps = none :=
    validateRulePriorities_none b rps hvalid
  have happly : ∀ rp ∈ rps, matchedRules b [rp.rule_arn] ≠ [] := by
    intro rp hm
    have h1 := hvalid rp hm
    unfold rulePriorityFree at h1
    cases hm2 : matchedRules b [rp.rule_arn] with
    | nil => rw [hm2] at h1; cases h1
    | cons r tl => simp
  obtain ⟨rules, b2, h⟩ := applyRulePriorities_ok rps b [] happly
  exact ⟨rules, b2, by simp [ELBv2Backend.set_rule_priorities, hfind, hval, h]⟩

theorem set_rule_priorities_success_witness :
    ∃ rules b2, bRules.set_rule_priorities
        [{ rule_arn := "arn-rule-a", priority := 9 }] = (.ok rules, b2) :=
  set_rule_priorities_success bRules
    [{ rule_arn := "arn-rule-a", priority := 9 }] (by decide) (by decide)
